import Mathlib

/-!
Shallow embedding of the `amnesia` cache library (Rust) in Lean 4.

The library is a key-value caching facade (`Cache`, src/lib.rs) over
interchangeable drivers (src/drivers/*.rs).  We embed:

* the in-memory driver (`MemoryDriver`, src/drivers/memory.rs), whose state
  is a `HashMap<String, (Vec<u8>, Option<SystemTime>)>`;
* the DynamoDB driver (`DynamoDBDriver`, src/drivers/dynamodb.rs), whose
  remote state is a table of items, each item a map from attribute name to
  `AttributeValue`;
* the no-op driver (`NullDriver`, src/drivers/null.rs);
* the generic `Cache` facade (src/lib.rs), parameterised by a driver model.

Modelling conventions:

* Time is a `Nat`, counted in nanoseconds since `UNIX_EPOCH` (the precision
  of `SystemTime`); `Duration` is a `Nat` of nanoseconds.  `as_secs` is
  division by `nsecPerSec`.
* Byte buffers (`Vec<u8>`) are `List Nat`.
* The serialization codec (`bitcode`) is an external collaborator; it is
  abstracted as an encoder `τ → Option (List Nat)` (`none` = serialize
  error) and a decoder `List Nat → Option τ` (`none` = deserialize error).
* Hash maps keyed by strings are association lists; `ainsert` mirrors
  `HashMap::insert` (replace any existing binding), `aerase` mirrors
  `HashMap::remove`, `alookup` mirrors `HashMap::get`.
* Remote network calls are modelled as operations on the remote state that
  do not fail with I/O errors; the SDK transport error variants of the Rust
  error enums are therefore omitted, all other variants are kept.
* A DynamoDB numeric attribute (`AttributeValue::N`) carries a decimal
  string on the wire which the driver parses as `u64`; we model the numeral
  already parsed as a `Nat`, so the parse step is folded into `as_n`.
  Attribute values of a different shape still make `as_n`/`as_b` fail,
  which the driver maps to `Error::InvalidDataFormat`.
-/

/-- Nanoseconds per second: `Duration::as_secs` is division by this. -/
def nsecPerSec : Nat := 1000000000

/-- Association-list lookup, mirroring `HashMap::get`. -/
def alookup {β : Type} (k : String) : List (String × β) → Option β
  | [] => none
  | (k2, v) :: rest => if k = k2 then some v else alookup k rest

/-- Association-list deletion, mirroring `HashMap::remove`. -/
def aerase {β : Type} (k : String) : List (String × β) → List (String × β)
  | [] => []
  | (k2, v) :: rest => if k2 = k then aerase k rest else (k2, v) :: aerase k rest

/-- Association-list insertion, mirroring `HashMap::insert` (replaces any
previous binding of the key). -/
def ainsert {β : Type} (k : String) (v : β) (m : List (String × β)) :
    List (String × β) :=
  (k, v) :: aerase k m

/-- Error type of the in-memory driver (src/drivers/memory.rs): the single
variant `DeserializationError(bitcode::Error)`, which both `serialize` and
`deserialize` failures are converted into. -/
inductive MemError : Type
  | deserializationError : MemError
deriving DecidableEq

/-- State of `MemoryDriver` (src/drivers/memory.rs): the field
`cache: HashMap<String, (Vec<u8>, Option<SystemTime>)>`. -/
structure MemoryDriver : Type where
  cache : List (String × (List Nat × Option Nat))
deriving DecidableEq

/-- `MemoryDriver::new`: starts with an empty map. -/
def MemoryDriver.new : MemoryDriver := ⟨[]⟩

/-- `MemoryDriver::get` (src/drivers/memory.rs lines 23-37): look the key up;
absent key gives `Ok(None)`; an expiration strictly earlier than the current
time gives `Ok(None)` without touching the map; otherwise deserialize. -/
def MemoryDriver.get {τ : Type} (dec : List Nat → Option τ) (m : MemoryDriver)
    (now : Nat) (key : String) : Except MemError (Option τ) :=
  match alookup key m.cache with
  | none => .ok none
  | some (data, expiresAt) =>
    match expiresAt with
    | some e =>
      if e < now then .ok none
      else
        match dec data with
        | none => .error .deserializationError
        | some v => .ok (some v)
    | none =>
      match dec data with
      | none => .error .deserializationError
      | some v => .ok (some v)

/-- `MemoryDriver::has` (src/drivers/memory.rs lines 39-41): literally
`Ok(self.cache.contains_key(key))`; no expiration check. -/
def MemoryDriver.has (m : MemoryDriver) (key : String) : Except MemError Bool :=
  .ok (alookup key m.cache).isSome

/-- `MemoryDriver::put` (src/drivers/memory.rs lines 43-55): serialize, compute
`expires_at = now + duration` when a duration is given, insert. -/
def MemoryDriver.put {τ : Type} (enc : τ → Option (List Nat)) (m : MemoryDriver)
    (now : Nat) (key : String) (value : τ) (duration : Option Nat) :
    Except MemError MemoryDriver :=
  match enc value with
  | none => .error .deserializationError
  | some data =>
    let expiresAt := duration.map (fun d => now + d)
    .ok ⟨ainsert key (data, expiresAt) m.cache⟩

/-- `MemoryDriver::forget` (src/drivers/memory.rs lines 57-61): remove the key. -/
def MemoryDriver.forget (m : MemoryDriver) (key : String) :
    Except MemError MemoryDriver :=
  .ok ⟨aerase key m.cache⟩

/-- `MemoryDriver::flush` (src/drivers/memory.rs lines 63-67): clear the map. -/
def MemoryDriver.flush (_m : MemoryDriver) : Except MemError MemoryDriver :=
  .ok ⟨[]⟩

/-- `aws_sdk_dynamodb::types::AttributeValue`, restricted to the variants the
driver produces and inspects: string, binary blob, number, null.  `N` carries
a decimal numeral; the driver parses it as `u64`, which we fold into the
constructor (see the header comment). -/
inductive AttributeValue : Type
  | S : String → AttributeValue
  | B : List Nat → AttributeValue
  | N : Nat → AttributeValue
  | Null : AttributeValue
deriving DecidableEq

/-- `AttributeValue::as_n` followed by `str::parse::<u64>`: yields the number
when the attribute is `N`, fails otherwise (the driver maps either failure to
`Error::InvalidDataFormat`). -/
def AttributeValue.as_n : AttributeValue → Option Nat
  | .N n => some n
  | _ => none

/-- `AttributeValue::as_b`: yields the bytes when the attribute is `B`. -/
def AttributeValue.as_b : AttributeValue → Option (List Nat)
  | .B b => some b
  | _ => none

/-- A DynamoDB item: a map from attribute name to attribute value. -/
def DynItem : Type := List (String × AttributeValue)

/-- The remote DynamoDB table: items addressed by the value of the partition
key attribute. -/
structure DynState : Type where
  table : List (String × DynItem)

/-- The `DynamoDBDriver` struct (src/drivers/dynamodb.rs lines 33-40) minus
the SDK client handle: the key prefix and the three configurable attribute
names.  The Rust field `prefix` is rendered `pfx` here.  The table name only
addresses the remote table, which `DynState` already denotes, so it is not
repeated. -/
structure DynDriver : Type where
  pfx : String
  keyAttr : String
  valueAttr : String
  expAttr : String

/-- Error enum of the DynamoDB driver (src/drivers/dynamodb.rs lines 165-197)
minus the SDK transport variants (network I/O is outside the model). -/
inductive DynError : Type
  | flushNotSupported : DynError
  | invalidDataFormat : DynError
  | serialization : DynError
deriving DecidableEq

/-- `DynamoDBDriver::get_item` (src/drivers/dynamodb.rs lines 43-80): fetch the
item keyed by `prefix + key`; when absent return `Ok(None)`; when the
expiration attribute is present it must be numeric (`as_n` then `parse`, else
`InvalidDataFormat`) and `UNIX_EPOCH + from_secs(e) < now` makes the item count
as absent; the value attribute must exist and be binary, else
`InvalidDataFormat`. -/
def DynamoDBDriver.get_item (d : DynDriver) (s : DynState) (now : Nat)
    (key : String) : Except DynError (Option (List Nat)) :=
  match alookup (d.pfx ++ key) s.table with
  | none => .ok none
  | some item =>
    let expired : Except DynError Bool :=
      match alookup d.expAttr item with
      | none => .ok false
      | some av =>
        match av.as_n with
        | none => .error .invalidDataFormat
        | some e => .ok (e * nsecPerSec < now)
    match expired with
    | .error err => .error err
    | .ok true => .ok none
    | .ok false =>
      match alookup d.valueAttr item with
      | none => .error .invalidDataFormat
      | some av =>
        match av.as_b with
        | none => .error .invalidDataFormat
        | some data => .ok (some data)

/-- `DynamoDBDriver::get` (src/drivers/dynamodb.rs lines 98-104): `get_item`
then deserialize; a decode failure is `Error::Serialization`. -/
def DynamoDBDriver.get {τ : Type} (dec : List Nat → Option τ) (d : DynDriver)
    (s : DynState) (now : Nat) (key : String) : Except DynError (Option τ) :=
  match DynamoDBDriver.get_item d s now key with
  | .error e => .error e
  | .ok none => .ok none
  | .ok (some data) =>
    match dec data with
    | none => .error .serialization
    | some v => .ok (some v)

/-- `DynamoDBDriver::has` (src/drivers/dynamodb.rs lines 106-110): `get_item`
then `is_some`. -/
def DynamoDBDriver.has (d : DynDriver) (s : DynState) (now : Nat)
    (key : String) : Except DynError Bool :=
  match DynamoDBDriver.get_item d s now key with
  | .error e => .error e
  | .ok item => .ok item.isSome

/-- `DynamoDBDriver::put` (src/drivers/dynamodb.rs lines 112-147): serialize,
then `put_item` with attributes `key = S(prefix + key)`,
`value = B(bytes)`, `expiration = N((now + expiry).as_secs())` or `Null` when
storing forever.  The item builder inserts those three in that order, later
insertions replacing earlier ones on a name collision. -/
def DynamoDBDriver.put {τ : Type} (enc : τ → Option (List Nat)) (d : DynDriver)
    (s : DynState) (now : Nat) (key : String) (value : τ)
    (expiry : Option Nat) : Except DynError DynState :=
  match enc value with
  | none => .error .serialization
  | some data =>
    let expAv : AttributeValue :=
      match expiry with
      | none => .Null
      | some dur => .N ((now + dur) / nsecPerSec)
    let item : DynItem :=
      ainsert d.expAttr expAv
        (ainsert d.valueAttr (.B data)
          (ainsert d.keyAttr (.S (d.pfx ++ key)) []))
    .ok ⟨ainsert (d.pfx ++ key) item s.table⟩

/-- `DynamoDBDriver::forget` (src/drivers/dynamodb.rs lines 149-158):
`delete_item` keyed by `S(key.to_string())` — note: the raw key, without the
prefix the other operations prepend. -/
def DynamoDBDriver.forget (_d : DynDriver) (s : DynState) (key : String) :
    Except DynError DynState :=
  .ok ⟨aerase key s.table⟩

/-- `DynamoDBDriver::flush` (src/drivers/dynamodb.rs lines 160-163): the body
is exactly `Err(Error::FlushNotSupported)`; no request is sent, so the remote
table (returned as the second component) is untouched. -/
def DynamoDBDriver.flush (_d : DynDriver) (s : DynState) :
    Except DynError Unit × DynState :=
  (.error .flushNotSupported, s)

/-- `NullDriver` (src/drivers/null.rs): a unit struct with no state. -/
structure NullDriver : Type
deriving DecidableEq

/-- `Infallible`: the null driver's uninhabited error type. -/
def NullError : Type := Empty

/-- `NullDriver::get`: always `Ok(None)`. -/
def NullDriver.get (τ : Type) (_n : NullDriver) (_key : String) :
    Except NullError (Option τ) :=
  .ok none

/-- `NullDriver::has`: always `Ok(false)`. -/
def NullDriver.has (_n : NullDriver) (_key : String) : Except NullError Bool :=
  .ok false

/-- `NullDriver::put`: does nothing. -/
def NullDriver.put {τ : Type} (n : NullDriver) (_key : String) (_value : τ)
    (_expiry : Option Nat) : Except NullError NullDriver :=
  .ok n

/-- `NullDriver::forget`: does nothing. -/
def NullDriver.forget (n : NullDriver) (_key : String) :
    Except NullError NullDriver :=
  .ok n

/-- `NullDriver::flush`: does nothing. -/
def NullDriver.flush (n : NullDriver) : Except NullError NullDriver :=
  .ok n

/-- The `Driver` trait (src/drivers/mod.rs), as a record of operations over an
abstract driver state `σ`, error type `ε` and value type `τ`.  Read
operations take `&self` in Rust, so they return no new state; mutating
operations take `&mut self`, so they return the updated state.  The clock and
the codec, which the concrete drivers read on each call, are fixed inside the
record when a concrete driver is packaged (see `memModel`, `nullModel`). -/
structure DriverModel (σ ε τ : Type) : Type where
  get : σ → String → Except ε (Option τ)
  has : σ → String → Except ε Bool
  put : σ → String → τ → Option Nat → Except ε σ
  forget : σ → String → Except ε σ
  flush : σ → Except ε σ

namespace Cache

variable {σ ε τ : Type}

/-- `Cache::get` (src/lib.rs lines 32-34): delegate. -/
def get (d : DriverModel σ ε τ) (s : σ) (key : String) : Except ε (Option τ) :=
  d.get s key

/-- `Cache::has` (src/lib.rs lines 41-43): delegate. -/
def has (d : DriverModel σ ε τ) (s : σ) (key : String) : Except ε Bool :=
  d.has s key

/-- `Cache::put` (src/lib.rs lines 111-118): delegate with `Some(expiry)`. -/
def put (d : DriverModel σ ε τ) (s : σ) (key : String) (value : τ)
    (expiry : Nat) : Except ε σ :=
  d.put s key value (some expiry)

/-- `Cache::forever` (src/lib.rs lines 145-151): delegate with `None`. -/
def forever (d : DriverModel σ ε τ) (s : σ) (key : String) (value : τ) :
    Except ε σ :=
  d.put s key value none

/-- `Cache::forget` (src/lib.rs lines 158-160): delegate. -/
def forget (d : DriverModel σ ε τ) (s : σ) (key : String) : Except ε σ :=
  d.forget s key

/-- `Cache::flush` (src/lib.rs lines 167-169): delegate. -/
def flush (d : DriverModel σ ε τ) (s : σ) : Except ε σ :=
  d.flush s

/-- `Cache::remember` (src/lib.rs lines 50-65): `driver.get`; on a hit return
the stored value, otherwise `self.put(key, value, duration)` and return the
provided value.  The pair also returns the driver state after the call. -/
def remember (d : DriverModel σ ε τ) (s : σ) (key : String) (duration : Nat)
    (value : τ) : Except ε (τ × σ) :=
  match d.get s key with
  | .error e => .error e
  | .ok (some v) => .ok (v, s)
  | .ok none =>
    match Cache.put d s key value duration with
    | .error e => .error e
    | .ok s2 => .ok (value, s2)

/-- `Cache::remember_forever` (src/lib.rs lines 72-86): same with `forever`. -/
def remember_forever (d : DriverModel σ ε τ) (s : σ) (key : String)
    (value : τ) : Except ε (τ × σ) :=
  match d.get s key with
  | .error e => .error e
  | .ok (some v) => .ok (v, s)
  | .ok none =>
    match Cache.forever d s key value with
    | .error e => .error e
    | .ok s2 => .ok (value, s2)

/-- `Cache::pull` (src/lib.rs lines 93-104): `self.get`; absent short-circuits
to `Ok(None)` with no `forget` call, a hit is followed by `self.forget`. -/
def pull (d : DriverModel σ ε τ) (s : σ) (key : String) :
    Except ε (Option τ × σ) :=
  match Cache.get d s key with
  | .error e => .error e
  | .ok none => .ok (none, s)
  | .ok (some v) =>
    match Cache.forget d s key with
    | .error e => .error e
    | .ok s2 => .ok (some v, s2)

/-- `Cache::add` (src/lib.rs lines 125-138): `self.has`; present returns
`Ok(false)` without writing, absent does `self.put` and returns `Ok(true)`. -/
def add (d : DriverModel σ ε τ) (s : σ) (key : String) (value : τ)
    (expiry : Nat) : Except ε (Bool × σ) :=
  match Cache.has d s key with
  | .error e => .error e
  | .ok true => .ok (false, s)
  | .ok false =>
    match Cache.put d s key value expiry with
    | .error e => .error e
    | .ok s2 => .ok (true, s2)

end Cache

/-- Package the in-memory driver as a `DriverModel`, fixing the codec and the
clock reading. -/
def memModel {τ : Type} (dec : List Nat → Option τ) (enc : τ → Option (List Nat))
    (now : Nat) : DriverModel MemoryDriver MemError τ where
  get := fun s k => MemoryDriver.get dec s now k
  has := fun s k => MemoryDriver.has s k
  put := fun s k v e => MemoryDriver.put enc s now k v e
  forget := fun s k => MemoryDriver.forget s k
  flush := fun s => MemoryDriver.flush s

/-- Package the no-op driver as a `DriverModel`. -/
def nullModel (τ : Type) : DriverModel NullDriver NullError τ where
  get := fun s k => NullDriver.get τ s k
  has := fun s k => NullDriver.has s k
  put := fun s k v e => NullDriver.put s k v e
  forget := fun s k => NullDriver.forget s k
  flush := fun s => NullDriver.flush s

/-- A concrete stand-in for the codec on `Nat` values: a single-byte buffer.
Any buffer not of that shape fails to decode, standing in for
`bitcode::deserialize` rejecting malformed input. -/
def decNat : List Nat → Option Nat
  | [n] => some n
  | _ => none

/-- The matching concrete encoder; total, but typed like the abstract codec. -/
def encNat : Nat → Option (List Nat) := fun n => some [n]

/-- Concrete memory state with one live entry for witnesses: key `"k"`,
payload `[7]`, expiring at instant `100`. -/
def memLive : MemoryDriver := ⟨[("k", ([7], some 100))]⟩

/-- Concrete memory state with one expired entry: key `"k"`, payload `[7]`,
expired at instant `5`. -/
def memExpired : MemoryDriver := ⟨[("k", ([7], some 5))]⟩

/-- Concrete memory state whose payload `[0, 1]` does not decode under
`decNat`. -/
def memBadPayload : MemoryDriver := ⟨[("k", ([0, 1], some 100))]⟩

/-- DynamoDB driver configuration with the default attribute names and an
empty prefix (src/drivers/dynamodb.rs `Config::default`). -/
def dynDefault : DynDriver := ⟨"", "key", "value", "expires_at"⟩

/-- DynamoDB driver configuration with the non-empty prefix `"p:"`. -/
def dynPrefixed : DynDriver := ⟨"p:", "key", "value", "expires_at"⟩

/-- The empty DynamoDB table. -/
def dynEmpty : DynState := ⟨[]⟩

/-- Concrete DynamoDB table with one unexpired item under key `"k"`
(expiration second 100, payload `[7]`), as `put` lays it out. -/
def dynLive : DynState :=
  ⟨[("k", [("expires_at", AttributeValue.N 100),
           ("value", AttributeValue.B [7]),
           ("key", AttributeValue.S "k")])]⟩

/-- Concrete DynamoDB table holding the prefixed key `"p:foo"`, as written by
`put` through a driver whose prefix is `"p:"`. -/
def dynPrefStored : DynState :=
  ⟨[("p:foo", [("expires_at", AttributeValue.N 100),
               ("value", AttributeValue.B [7]),
               ("key", AttributeValue.S "p:foo")])]⟩

/-- Concrete DynamoDB table as left by
`put encNat dynDefault dynEmpty 1000000000 "k" 7 (some 1500000000)`: the
expiration instant 2500000000 ns is stored truncated to second 2. -/
def dynTrunc : DynState :=
  ⟨[("k", [("expires_at", AttributeValue.N 2),
           ("value", AttributeValue.B [7]),
           ("key", AttributeValue.S "k")])]⟩

/-- Concrete DynamoDB table with an unexpired item whose payload `[0, 1]`
does not decode under `decNat`. -/
def dynBad : DynState :=
  ⟨[("k", [("expires_at", AttributeValue.N 100),
           ("value", AttributeValue.B [0, 1]),
           ("key", AttributeValue.S "k")])]⟩

/-- Memory state as left by `put encNat MemoryDriver.new 0 "k" 7 (some 5)`. -/
def memPut5 : MemoryDriver := ⟨[("k", ([7], some 5))]⟩

/-! ### Association-list lemmas -/

theorem alookup_ainsert_self {β : Type} (k : String) (v : β)
    (m : List (String × β)) : alookup k (ainsert k v m) = some v := by
  simp [ainsert, alookup]

theorem alookup_aerase_self {β : Type} (k : String) (m : List (String × β)) :
    alookup k (aerase k m) = none := by
  induction m with
  | nil => rfl
  | cons p rest ih =>
    obtain ⟨k2, v⟩ := p
    by_cases h : k2 = k
    · simp [aerase, h, ih]
    · simp [aerase, alookup, h, Ne.symm h, ih]

theorem alookup_aerase_ne {β : Type} (k k2 : String) (m : List (String × β))
    (h : k2 ≠ k) : alookup k2 (aerase k m) = alookup k2 m := by
  induction m with
  | nil => rfl
  | cons p rest ih =>
    obtain ⟨k3, v⟩ := p
    by_cases h2 : k3 = k
    · subst h2
      simp [aerase, alookup, h, ih]
    · simp [aerase, alookup, h2, ih]

theorem alookup_ainsert_ne {β : Type} (k k2 : String) (v : β)
    (m : List (String × β)) (h : k2 ≠ k) :
    alookup k2 (ainsert k v m) = alookup k2 m := by
  simp [ainsert, alookup, h, alookup_aerase_ne k k2 m h]

/-! ### Claim theorems -/

/-- C9: in the no-op (null) driver, every operation succeeds (the error type
is uninhabited) and has no effect: `get` returns `None`, `has` returns
`false`, and `put`, `forget` and `flush` return success with the (stateless)
driver unchanged. -/
theorem null_driver_spec :
    (∀ (τ : Type) (n : NullDriver) (k : String),
      NullDriver.get τ n k = .ok none)
    ∧ (∀ (n : NullDriver) (k : String), NullDriver.has n k = .ok false)
    ∧ (∀ (τ : Type) (n : NullDriver) (k : String) (v : τ) (e : Option Nat),
      NullDriver.put n k v e = .ok n)
    ∧ (∀ (n : NullDriver) (k : String), NullDriver.forget n k = .ok n)
    ∧ (∀ (n : NullDriver), NullDriver.flush n = .ok n)
    ∧ (NullError → False) :=
  ⟨fun _ _ _ => rfl, fun _ _ => rfl, fun _ _ _ _ _ => rfl, fun _ _ => rfl,
    fun _ => rfl, fun e => e.elim⟩

/-- C6: on the DynamoDB driver, `flush` always fails with the distinguished
`FlushNotSupported` error and touches nothing: the remote table after the
failed call is the very same state, so `get` on any key returns the same
result as before the call. -/
theorem dynamodb_flush_spec (d : DynDriver) (s : DynState) :
    (DynamoDBDriver.flush d s).1 = .error .flushNotSupported
    ∧ (DynamoDBDriver.flush d s).2 = s
    ∧ ∀ (τ : Type) (dec : List Nat → Option τ) (now : Nat) (k : String),
        DynamoDBDriver.get dec d (DynamoDBDriver.flush d s).2 now k
          = DynamoDBDriver.get dec d s now k :=
  ⟨rfl, rfl, fun _ _ _ _ => rfl⟩

/-- C1 as stated is false: in the in-memory driver `has` is
`cache.contains_key` and never consults the stored expiration, so on a state
holding key `"k"` expired at instant 5, read at instant 10, `get` reports the
key absent while `has` reports it present. -/
theorem memory_has_ignores_expiry_cex :
    MemoryDriver.get decNat memExpired 10 "k" = .ok none
    ∧ MemoryDriver.has memExpired "k" = .ok true :=
  ⟨rfl, rfl⟩

/-- C1 amended: in the DynamoDB driver `has` and `get` agree on expiration
(both consult `get_item`, which hides expired items): whenever `get` returns
a value `has` returns `true`, and whenever `get` returns absent `has` returns
`false`.  In the in-memory driver `has` only reports physical presence
without checking expiration: a stored entry whose expiration is earlier than
the current time is reported absent by `get` yet present by `has`. -/
theorem has_get_consistency_amended :
    (∀ (τ : Type) (dec : List Nat → Option τ) (d : DynDriver) (s : DynState)
        (now : Nat) (k : String),
      (∀ v : τ, DynamoDBDriver.get dec d s now k = .ok (some v) →
        DynamoDBDriver.has d s now k = .ok true)
      ∧ (DynamoDBDriver.get dec d s now k = .ok none →
        DynamoDBDriver.has d s now k = .ok false))
    ∧ (∀ (τ : Type) (dec : List Nat → Option τ) (m : MemoryDriver)
        (k : String) (data : List Nat) (e now : Nat),
      alookup k m.cache = some (data, some e) → e < now →
      MemoryDriver.get dec m now k = .ok none
      ∧ MemoryDriver.has m k = .ok true) := by
  constructor
  · intro τ dec d s now k
    constructor
    · intro v hv
      cases hgi : DynamoDBDriver.get_item d s now k with
      | error err => simp [DynamoDBDriver.get, hgi] at hv
      | ok item =>
        cases item with
        | none => simp [DynamoDBDriver.get, hgi] at hv
        | some data => simp [DynamoDBDriver.has, hgi]
    · intro hv
      cases hgi : DynamoDBDriver.get_item d s now k with
      | error err => simp [DynamoDBDriver.get, hgi] at hv
      | ok item =>
        cases item with
        | none => simp [DynamoDBDriver.has, hgi]
        | some data =>
          simp only [DynamoDBDriver.get, hgi] at hv
          cases hd : dec data with
          | none => simp [hd] at hv
          | some v => simp [hd] at hv
  · intro τ dec m k data e now hstored hexp
    constructor
    · simp [MemoryDriver.get, hstored, hexp]
    · simp [MemoryDriver.has, hstored]

/-- Witness for the amended C1: the DynamoDB part at a concrete unexpired
item (get returns `some 7`, hence has returns `true`), the memory part at the
concrete expired state. -/
theorem has_get_consistency_amended_witness :
    DynamoDBDriver.has dynDefault dynLive 5 "k" = .ok true
    ∧ (MemoryDriver.get decNat memExpired 10 "k" = .ok none
      ∧ MemoryDriver.has memExpired "k" = .ok true) :=
  ⟨(has_get_consistency_amended.1 Nat decNat dynDefault dynLive 5 "k").1 7 rfl,
    has_get_consistency_amended.2 Nat decNat memExpired "k" [7] 5 10 rfl
      (by norm_num)⟩

/-- C2 fails on the DynamoDB driver configured with the non-empty prefix
`"p:"`: `get`/`put`/`has` address the item `"p:" ++ key` but `forget` deletes
the raw, unprefixed key.  On a table holding `"p:foo"`, `forget "foo"`
deletes nothing (the table is returned unchanged) and the immediately
following `get "foo"` still returns the stored value instead of absent. -/
theorem dynamodb_forget_misses_prefixed_key :
    DynamoDBDriver.forget dynPrefixed dynPrefStored "foo" = .ok dynPrefStored
    ∧ DynamoDBDriver.get decNat dynPrefixed dynPrefStored 5 "foo"
        = .ok (some 7) :=
  ⟨rfl, rfl⟩

/-- C3 as stated is false on the DynamoDB driver: `put` stores the expiration
instant truncated to whole seconds (`as_secs`).  Putting at instant
1000000000 ns with duration 1500000000 ns stores expiration second 2; a read
at instant 2200000000 ns — strictly before the 2500000000 ns at which the
duration elapses — already reports the key absent. -/
theorem dynamodb_truncation_cex :
    DynamoDBDriver.put encNat dynDefault dynEmpty 1000000000 "k" (7 : Nat)
        (some 1500000000) = .ok dynTrunc
    ∧ 2200000000 < 1000000000 + 1500000000
    ∧ DynamoDBDriver.get decNat dynDefault dynTrunc 2200000000 "k"
        = .ok none :=
  ⟨rfl, by norm_num, rfl⟩

/-- C3 amended: in the in-memory driver the claim holds exactly: after
`put(k, v, Some d)` succeeds at instant `now1`, `get(k)` returns `v` at any
read instant before `now1 + d` and absent at any read instant after.  In the
DynamoDB driver the expiration is stored truncated to whole seconds, so
`get(k)` returns absent at any read instant after `now1 + d` (the entry
remaining physically stored), but returns `v` before `now1 + d` only at read
instants no later than the whole-second truncation of `now1 + d`; a read in
the final fractional second before expiry already reports absent. -/
theorem put_get_expiry_amended :
    (∀ (τ : Type) (enc : τ → Option (List Nat)) (dec : List Nat → Option τ)
        (m : MemoryDriver) (now1 : Nat) (k : String) (v : τ) (dur : Nat)
        (bytes : List Nat) (m2 : MemoryDriver),
      enc v = some bytes → dec bytes = some v →
      MemoryDriver.put enc m now1 k v (some dur) = .ok m2 →
      ∀ now2 : Nat,
        (now2 < now1 + dur → MemoryDriver.get dec m2 now2 k = .ok (some v))
        ∧ (now1 + dur < now2 → MemoryDriver.get dec m2 now2 k = .ok none))
    ∧ (∀ (τ : Type) (enc : τ → Option (List Nat)) (dec : List Nat → Option τ)
        (d : DynDriver) (s : DynState) (now1 : Nat) (k : String) (v : τ)
        (dur : Nat) (bytes : List Nat) (s2 : DynState),
      enc v = some bytes → dec bytes = some v → d.valueAttr ≠ d.expAttr →
      DynamoDBDriver.put enc d s now1 k v (some dur) = .ok s2 →
      ∀ now2 : Nat,
        (now2 ≤ ((now1 + dur) / nsecPerSec) * nsecPerSec →
          DynamoDBDriver.get dec d s2 now2 k = .ok (some v))
        ∧ (((now1 + dur) / nsecPerSec) * nsecPerSec < now2 →
          DynamoDBDriver.get dec d s2 now2 k = .ok none)
        ∧ (now1 + dur < now2 →
          DynamoDBDriver.get dec d s2 now2 k = .ok none)) := by
  constructor
  · intro τ enc dec m now1 k v dur bytes m2 henc hdec hput now2
    simp only [MemoryDriver.put, henc, Option.map_some, Except.ok.injEq]
      at hput
    subst hput
    constructor
    · intro hlt
      have hne : ¬ now1 + dur < now2 := by omega
      simp [MemoryDriver.get, alookup_ainsert_self, hne, hdec]
    · intro hgt
      simp [MemoryDriver.get, alookup_ainsert_self, hgt]
  · intro τ enc dec d s now1 k v dur bytes s2 henc hdec hne hput now2
    simp only [DynamoDBDriver.put, henc, Except.ok.injEq] at hput
    subst hput
    have hitem := alookup_ainsert_self (β := DynItem) (d.pfx ++ k)
      (ainsert d.expAttr (AttributeValue.N ((now1 + dur) / nsecPerSec))
        (ainsert d.valueAttr (AttributeValue.B bytes)
          (ainsert d.keyAttr (AttributeValue.S (d.pfx ++ k)) [])))
      s.table
    have hexpattr := alookup_ainsert_self (β := AttributeValue) d.expAttr
      (AttributeValue.N ((now1 + dur) / nsecPerSec))
      (ainsert d.valueAttr (AttributeValue.B bytes)
        (ainsert d.keyAttr (AttributeValue.S (d.pfx ++ k)) []))
    have hvalattr : alookup d.valueAttr
        (ainsert d.expAttr (AttributeValue.N ((now1 + dur) / nsecPerSec))
          (ainsert d.valueAttr (AttributeValue.B bytes)
            (ainsert d.keyAttr (AttributeValue.S (d.pfx ++ k)) [])))
        = some (AttributeValue.B bytes) := by
      rw [alookup_ainsert_ne _ _ _ _ hne]
      exact alookup_ainsert_self _ _ _
    refine ⟨?_, ?_, ?_⟩
    · intro hle
      have hnex : ¬ ((now1 + dur) / nsecPerSec) * nsecPerSec < now2 := by
        omega
      simp [DynamoDBDriver.get, DynamoDBDriver.get_item, hitem, hexpattr,
        hvalattr, AttributeValue.as_n, AttributeValue.as_b, hnex, hdec]
    · intro hgt
      simp [DynamoDBDriver.get, DynamoDBDriver.get_item, hitem, hexpattr,
        AttributeValue.as_n, hgt]
    · intro hgt
      have hgt2 : ((now1 + dur) / nsecPerSec) * nsecPerSec < now2 := by
        have := Nat.div_mul_le_self (now1 + dur) nsecPerSec
        omega
      simp [DynamoDBDriver.get, DynamoDBDriver.get_item, hitem, hexpattr,
        AttributeValue.as_n, hgt2]

/-- Witness for the amended C3: the memory part read before (instant 3) and
after (instant 9) an expiry at instant 5; the DynamoDB part stored at
instant 0 for 2500000000 ns (truncated to second 2), read at 2000000000 ns
(present) and 2000000001 ns (absent). -/
theorem put_get_expiry_amended_witness :
    (MemoryDriver.get decNat memPut5 3 "k" = .ok (some 7)
      ∧ MemoryDriver.get decNat memPut5 9 "k" = .ok none)
    ∧ (DynamoDBDriver.get decNat dynDefault dynTrunc 2000000000 "k"
        = .ok (some 7)
      ∧ DynamoDBDriver.get decNat dynDefault dynTrunc 2000000001 "k"
        = .ok none) :=
  ⟨⟨(put_get_expiry_amended.1 Nat encNat decNat MemoryDriver.new 0 "k" 7 5
        [7] memPut5 rfl rfl rfl 3).1 (by norm_num),
    (put_get_expiry_amended.1 Nat encNat decNat MemoryDriver.new 0 "k" 7 5
        [7] memPut5 rfl rfl rfl 9).2 (by norm_num)⟩,
    ⟨(put_get_expiry_amended.2 Nat encNat decNat dynDefault dynEmpty 0 "k" 7
        2500000000 [7] dynTrunc rfl rfl (by decide) rfl 2000000000).1
        (by norm_num [nsecPerSec]),
      ((put_get_expiry_amended.2 Nat encNat decNat dynDefault dynEmpty 0 "k" 7
        2500000000 [7] dynTrunc rfl rfl (by decide) rfl 2000000001).2).1
        (by norm_num [nsecPerSec])⟩⟩

/-- C4: `Cache::add` over any driver: when `has` reports the key present it
returns `false` and performs no write (the state it returns is the input
state, so the existing value is untouched); when `has` reports the key
absent it delegates to `Cache::put` (which stores the value with the given
expiry) and returns `true` exactly when that `put` succeeds. -/
theorem cache_add_spec {σ ε τ : Type} (d : DriverModel σ ε τ) (s : σ)
    (k : String) (v : τ) (e : Nat) :
    (Cache.has d s k = .ok true → Cache.add d s k v e = .ok (false, s))
    ∧ (Cache.has d s k = .ok false →
      Cache.add d s k v e
        = (Cache.put d s k v e).map (fun s2 => (true, s2))) := by
  constructor
  · intro h
    simp [Cache.add, h]
  · intro h
    cases hp : Cache.put d s k v e with
    | error err => simp [Cache.add, h, hp, Except.map]
    | ok s2 => simp [Cache.add, h, hp, Except.map]

/-- Witness for C4: over the in-memory driver at instant 5, `add` on a state
already holding `"k"` returns `false` and the unchanged state; `add` on the
empty cache stores `[7]` expiring at instant `5 + 3` and returns `true`. -/
theorem cache_add_spec_witness :
    Cache.add (memModel decNat encNat 5) memLive "k" (7 : Nat) 3
        = .ok (false, memLive)
    ∧ Cache.add (memModel decNat encNat 5) MemoryDriver.new "k" (7 : Nat) 3
        = .ok (true, ⟨[("k", ([7], some 8))]⟩) :=
  ⟨(cache_add_spec (memModel decNat encNat 5) memLive "k" 7 3).1 rfl,
    by
      rw [(cache_add_spec (memModel decNat encNat 5) MemoryDriver.new "k" 7
        3).2 rfl]
      rfl⟩

/-- C5: `Cache::remember` over any driver: when `get` returns an existing
value it returns that value with the state untouched (no write); when `get`
returns absent it delegates to `Cache::put` with the given duration and
returns the provided value alongside the written state. -/
theorem cache_remember_spec {σ ε τ : Type} (d : DriverModel σ ε τ) (s : σ)
    (k : String) (dur : Nat) (v : τ) :
    (∀ w : τ, Cache.get d s k = .ok (some w) →
      Cache.remember d s k dur v = .ok (w, s))
    ∧ (Cache.get d s k = .ok none →
      Cache.remember d s k dur v
        = (Cache.put d s k v dur).map (fun s2 => (v, s2))) := by
  constructor
  · intro w h
    simp only [Cache.get] at h
    simp [Cache.remember, h]
  · intro h
    simp only [Cache.get] at h
    cases hp : Cache.put d s k v dur with
    | error err => simp [Cache.remember, h, hp, Except.map]
    | ok s2 => simp [Cache.remember, h, hp, Except.map]

/-- Witness for C5: over the in-memory driver at instant 5, `remember` on a
state holding `"k"` with payload `[7]` returns the decoded `7` and the
unchanged state; `remember` on the empty cache writes and returns the
provided `9`. -/
theorem cache_remember_spec_witness :
    Cache.remember (memModel decNat encNat 5) memLive "k" 3 (9 : Nat)
        = .ok (7, memLive)
    ∧ Cache.remember (memModel decNat encNat 5) MemoryDriver.new "k" 3
        (9 : Nat) = .ok (9, ⟨[("k", ([9], some 8))]⟩) :=
  ⟨(cache_remember_spec (memModel decNat encNat 5) memLive "k" 3 9).1 7 rfl,
    by
      rw [(cache_remember_spec (memModel decNat encNat 5) MemoryDriver.new
        "k" 3 9).2 rfl]
      rfl⟩

/-- C7: `Cache::pull` over any driver: when `get` returns absent, `pull`
returns `None` and the input state itself — the `forget` call never happens
and the cache is unchanged; when `get` finds a value, `pull` performs
`forget` and returns the value alongside the state `forget` produced. -/
theorem cache_pull_spec {σ ε τ : Type} (d : DriverModel σ ε τ) (s : σ)
    (k : String) :
    (Cache.get d s k = .ok none → Cache.pull d s k = .ok (none, s))
    ∧ (∀ w : τ, Cache.get d s k = .ok (some w) →
      Cache.pull d s k
        = (Cache.forget d s k).map (fun s2 => (some w, s2))) := by
  constructor
  · intro h
    simp [Cache.pull, h]
  · intro w h
    cases hf : Cache.forget d s k with
    | error err => simp [Cache.pull, h, hf, Except.map]
    | ok s2 => simp [Cache.pull, h, hf, Except.map]

/-- Witness for C7: over the in-memory driver at instant 5, `pull` on the
empty cache returns `None` with the state unchanged; `pull` on a state
holding `"k"` returns the decoded `7` and the state with the key removed. -/
theorem cache_pull_spec_witness :
    Cache.pull (memModel decNat encNat 5) MemoryDriver.new "k"
        = .ok ((none : Option Nat), MemoryDriver.new)
    ∧ Cache.pull (memModel decNat encNat 5) memLive "k"
        = .ok (some 7, ⟨[]⟩) :=
  ⟨(cache_pull_spec (memModel decNat encNat 5) MemoryDriver.new "k").1 rfl,
    by
      rw [(cache_pull_spec (memModel decNat encNat 5) memLive "k").2 7 rfl]
      rfl⟩

/-- C8: in the in-memory driver, `get` never modifies the stored map — in
the source it takes `&self`, so the embedding gives it no state output at
all.  On a key whose expiration has passed, `get` returns absent while the
entry remains physically stored (`has`, i.e. `contains_key`, still reports
it, and the lookup hypothesis still holds of the unchanged state); the entry
disappears from the map under `forget` and `flush`, and is replaced (not
merely hidden) by a later `put` of the same key. -/
theorem memory_get_preserves_map {τ : Type} (dec : List Nat → Option τ)
    (m : MemoryDriver) (k : String) (data : List Nat) (e now : Nat)
    (hstored : alookup k m.cache = some (data, some e)) (hexp : e < now) :
    MemoryDriver.get dec m now k = .ok none
    ∧ MemoryDriver.has m k = .ok true
    ∧ (MemoryDriver.forget m k).map (fun m2 => alookup k m2.cache)
        = .ok none
    ∧ (MemoryDriver.flush m).map (fun m2 => alookup k m2.cache) = .ok none
    ∧ ∀ (enc : τ → Option (List Nat)) (v : τ) (bytes : List Nat)
        (dur : Option Nat), enc v = some bytes →
        (MemoryDriver.put enc m now k v dur).map
            (fun m2 => alookup k m2.cache)
          = .ok (some (bytes, dur.map (fun x => now + x))) := by
  refine ⟨?_, ?_, ?_, ?_, ?_⟩
  · simp [MemoryDriver.get, hstored, hexp]
  · simp [MemoryDriver.has, hstored]
  · simp [MemoryDriver.forget, Except.map, alookup_aerase_self]
  · simp [MemoryDriver.flush, Except.map, alookup]
  · intro enc v bytes dur henc
    simp [MemoryDriver.put, henc, Except.map, alookup_ainsert_self]

/-- Witness for C8: the concrete state holding `"k"` expired at instant 5,
read at instant 10; a subsequent `put` with no expiration replaces the
entry. -/
theorem memory_get_preserves_map_witness :
    MemoryDriver.get decNat memExpired 10 "k" = .ok none
    ∧ MemoryDriver.has memExpired "k" = .ok true
    ∧ (MemoryDriver.forget memExpired "k").map
        (fun m2 => alookup "k" m2.cache) = .ok none
    ∧ (MemoryDriver.flush memExpired).map
        (fun m2 => alookup "k" m2.cache) = .ok none
    ∧ (MemoryDriver.put encNat memExpired 10 "k" 9 none).map
        (fun m2 => alookup "k" m2.cache) = .ok (some ([9], none)) := by
  have h := memory_get_preserves_map decNat memExpired "k" [7] 5 10 rfl
    (by norm_num)
  exact ⟨h.1, h.2.1, h.2.2.1, h.2.2.2.1, h.2.2.2.2 encNat 9 [9] none rfl⟩

/-- C10: neither the in-memory nor the DynamoDB `has` decodes the stored
payload.  For a stored, unexpired entry whose byte payload does not decode
as the requested type, `get` fails with the driver's deserialization error
(`DeserializationError` in memory, `Serialization` on DynamoDB) while `has`
on the same key returns `true`: a key can be reported present yet be
unreadable. -/
theorem has_never_decodes :
    (∀ (τ : Type) (dec : List Nat → Option τ) (m : MemoryDriver) (k : String)
        (data : List Nat) (expOpt : Option Nat) (now : Nat),
      alookup k m.cache = some (data, expOpt) →
      (∀ e, expOpt = some e → ¬ e < now) → dec data = none →
      MemoryDriver.get dec m now k = .error .deserializationError
      ∧ MemoryDriver.has m k = .ok true)
    ∧ (∀ (τ : Type) (dec : List Nat → Option τ) (d : DynDriver)
        (s : DynState) (now : Nat) (k : String) (item : DynItem) (e : Nat)
        (bytes : List Nat),
      alookup (d.pfx ++ k) s.table = some item →
      alookup d.expAttr item = some (AttributeValue.N e) →
      ¬ e * nsecPerSec < now →
      alookup d.valueAttr item = some (AttributeValue.B bytes) →
      dec bytes = none →
      DynamoDBDriver.get dec d s now k = .error .serialization
      ∧ DynamoDBDriver.has d s now k = .ok true) := by
  constructor
  · intro τ dec m k data expOpt now hstored hlive hdec
    cases expOpt with
    | none =>
      exact ⟨by simp [MemoryDriver.get, hstored, hdec],
        by simp [MemoryDriver.has, hstored]⟩
    | some e =>
      have he := hlive e rfl
      exact ⟨by simp [MemoryDriver.get, hstored, he, hdec],
        by simp [MemoryDriver.has, hstored]⟩
  · intro τ dec d s now k item e bytes hitem hexpattr hlive hval hdec
    constructor
    · simp [DynamoDBDriver.get, DynamoDBDriver.get_item, hitem, hexpattr,
        AttributeValue.as_n, hlive, hval, AttributeValue.as_b, hdec]
    · simp [DynamoDBDriver.has, DynamoDBDriver.get_item, hitem, hexpattr,
        AttributeValue.as_n, hlive, hval, AttributeValue.as_b]

/-- Witness for C10: the memory state whose payload `[0, 1]` does not decode
under `decNat` (entry unexpired: expiry 100, read at 10), and the DynamoDB
table with the analogous item. -/
theorem has_never_decodes_witness :
    (MemoryDriver.get decNat memBadPayload 10 "k"
        = .error .deserializationError
      ∧ MemoryDriver.has memBadPayload "k" = .ok true)
    ∧ (DynamoDBDriver.get decNat dynDefault dynBad 5 "k"
        = .error .serialization
      ∧ DynamoDBDriver.has dynDefault dynBad 5 "k" = .ok true) :=
  ⟨has_never_decodes.1 Nat decNat memBadPayload "k" [0, 1] (some 100) 10 rfl
      (by intro e he; simp at he; omega) rfl,
    has_never_decodes.2 Nat decNat dynDefault dynBad 5 "k"
      [("expires_at", AttributeValue.N 100),
        ("value", AttributeValue.B [0, 1]),
        ("key", AttributeValue.S "k")] 100 [0, 1] rfl rfl
      (by norm_num [nsecPerSec]) rfl rfl⟩
